import Mathlib

/-!
Shallow embedding of the `retag` recruitment-tag tool (Rust sources under
`src/`), covering the types and operations of `src/types/tag.rs`,
`src/types/operator.rs` and `src/core/calculator.rs`, together with
theorems settling the specification claims about them.

External capabilities (OpenCV image primitives, the Tesseract OCR engine,
the difflib fuzzy matcher, the filesystem) are modelled as explicit
parameters or outcome arguments, as the spec itself treats them as
collaborators outside the core.
-/

namespace Retag

/-- `TagType` enum, src/types/tag.rs lines 56-87: the closed vocabulary of
29 recruitment tag kinds. -/
inductive TagType where
  | Medic
  | Caster
  | Vanguard
  | Guard
  | Defender
  | Defense
  | Supporter
  | Melee
  | Debuff
  | FastRedeploy
  | Shift
  | Summon
  | Support
  | Survival
  | Elemental
  | Ranged
  | DpRecovery
  | Starter
  | Slow
  | AoE
  | Sniper
  | CrowdControl
  | Healing
  | DPS
  | Nuker
  | SeniorOperator
  | Specialist
  | Robot
  | TopOperator
  deriving DecidableEq, Repr

/-- `Rarity` enum, src/types/operator.rs lines 8-22: six tiers, `Tier6`
being the top rarity. -/
inductive Rarity where
  | Tier1
  | Tier2
  | Tier3
  | Tier4
  | Tier5
  | Tier6
  deriving DecidableEq, Repr

/-- `Position` enum, src/types/operator.rs lines 24-30. -/
inductive Position where
  | Melee
  | Ranged
  deriving DecidableEq, Repr

/-- `Order` enum, src/core/calculator.rs lines 9-12. -/
inductive Order where
  | Default
  deriving DecidableEq, Repr

/-- `errors::TagError`: the error returned by `Tag::new` for a string
outside the lookup table (src/types/tag.rs line 294). -/
inductive TagError where
  | InvalidTagString
  deriving DecidableEq, Repr

/-- OpenCV `Rect` (machine `i32` fields modelled as `Int`). -/
structure Rect where
  x : Int
  y : Int
  width : Int
  height : Int
  deriving DecidableEq, Repr

/-- OpenCV `Size`. -/
structure Size where
  width : Int
  height : Int
  deriving DecidableEq, Repr

/-- OpenCV `Point`. -/
structure Point where
  x : Int
  y : Int
  deriving DecidableEq, Repr

/-- `Rect::area()` = width * height. -/
def Rect.area (r : Rect) : Int := r.width * r.height

/-- `Size::area()` = width * height. -/
def Size.area (s : Size) : Int := s.width * s.height

/-- `Operator` struct, src/types/operator.rs lines 32-44.  The `avatar`
field (an image asset decoded at load time) is presentation-only data and
carries no information used by any claim, so it is omitted from the
embedding. -/
structure Operator where
  id : String
  name : String
  rarity : Rarity
  tag_list : List TagType
  position : Position
  deriving DecidableEq, Repr

/-- `Operator::matches_tags`, src/types/operator.rs lines 72-77:
an early `return false` for a Tier6 operator when the queried tag list
lacks `TopOperator`, otherwise the check that every queried tag occurs in
the operator's own tag list. -/
def Operator.matches_tags (op : Operator) (tags : List TagType) : Bool :=
  if op.rarity == Rarity.Tier6 && !(tags.contains TagType.TopOperator) then
    false
  else
    tags.all (fun tag => op.tag_list.contains tag)

/-- `Tag` struct, src/types/tag.rs lines 214-219. -/
structure Tag where
  tag_type : TagType
  selected : Bool
  bounding_box : Rect
  deriving DecidableEq, Repr

/-- `UiTag` struct, src/types/tag.rs lines 721-727. -/
structure UiTag where
  tag_type : TagType
  offset_x : Int
  offset_y : Int
  selected : Bool
  bounding_box : Rect
  deriving DecidableEq, Repr

/-- `CalcResult` struct, src/core/calculator.rs lines 14-18 (the borrowed
`&Operator` references are modelled by the operator values themselves). -/
structure CalcResult where
  tag_variation : List TagType
  obtainable_operators : List Operator
  deriving DecidableEq, Repr

/-- `Calculator` struct, src/core/calculator.rs lines 20-27. -/
structure Calculator where
  pool : List Operator
  ignore_tier_1 : Bool
  ignore_tier_2 : Bool
  ignore_tier_3 : Bool
  sort_order : Order
  deriving DecidableEq, Repr

/-- `Calculator::variations`, src/core/calculator.rs lines 42-55: for each
`len` in `1..=tags.len()` it extends the accumulator with
`tags.iter().combinations(len)`.  itertools' `combinations(len)` yields,
once each, every length-`len` subsequence of its input, which is exactly
`List.sublistsLen len tags`; the loop over `len` is the `flatMap` over
`List.range tags.length` shifted by one. -/
def Calculator.variations (tags : List TagType) : List (List TagType) :=
  (List.range tags.length).flatMap (fun len => List.sublistsLen (len + 1) tags)

/-- The tier-filter condition of `Calculator::evaluate`,
src/core/calculator.rs lines 69-71, verbatim: the operator is skipped
(`continue`) exactly when this conjunction holds. -/
def Calculator.tierSkip (c : Calculator) (op : Operator) : Bool :=
  (c.ignore_tier_1 && op.rarity == Rarity.Tier1)
    && (c.ignore_tier_2 && op.rarity == Rarity.Tier2)
    && (c.ignore_tier_3 && op.rarity == Rarity.Tier3)

/-- The inner loop of `Calculator::evaluate`, src/core/calculator.rs lines
67-78: scan the pool, `continue` past tier-skipped operators, collect
those whose `matches_tags` accepts the variation.  The loop-with-continue
is the filter by "not skipped and matches". -/
def Calculator.matchedOps (c : Calculator) (variation : List TagType) :
    List Operator :=
  c.pool.filter (fun op => !(c.tierSkip op) && op.matches_tags variation)

/-- `TAGS_STRINGS`, src/types/tag.rs lines 24-54: the fixed vocabulary of
29 accepted tag-name spellings handed to the fuzzy matcher. -/
def TAGS_STRINGS : List String :=
  [ "Medic", "Caster", "Vanguard", "Guard", "Defender", "Defense",
    "Supporter", "Melee", "Debuff", "Fast-Redeploy", "Shift", "Summon",
    "Support", "Survival", "Elemental", "Ranged", "Dp-Recovery", "Starter",
    "Slow", "AoE", "Sniper", "Crowd-Control", "Healing", "DPS", "Nuker",
    "Senior-Operator", "Specialist", "Robot", "Top-Operator" ]

/-- The lookup table of `Tag::new`, src/types/tag.rs lines 264-295: each
match arm becomes one entry per accepted spelling, in source order (an arm
with several `|` patterns contributes one entry per pattern). -/
def tagTable : List (String × TagType) :=
  [ ("Medic", TagType.Medic),
    ("Caster", TagType.Caster),
    ("Vanguard", TagType.Vanguard),
    ("Guard", TagType.Guard),
    ("Defender", TagType.Defender),
    ("Defense", TagType.Defense),
    ("Supporter", TagType.Supporter),
    ("Melee", TagType.Melee),
    ("Debuff", TagType.Debuff),
    ("Fast-Redeploy", TagType.FastRedeploy),
    ("FastRedeploy", TagType.FastRedeploy),
    ("Fast Redeploy", TagType.FastRedeploy),
    ("Shift", TagType.Shift),
    ("Summon", TagType.Summon),
    ("Support", TagType.Support),
    ("Survival", TagType.Survival),
    ("Elemental", TagType.Elemental),
    ("Ranged", TagType.Ranged),
    ("Dp-Recovery", TagType.DpRecovery),
    ("DpRecovery", TagType.DpRecovery),
    ("Dp Recovery", TagType.DpRecovery),
    ("Starter", TagType.Starter),
    ("Slow", TagType.Slow),
    ("AoE", TagType.AoE),
    ("Sniper", TagType.Sniper),
    ("Crowd-Control", TagType.CrowdControl),
    ("CrowdControl", TagType.CrowdControl),
    ("Crowd Control", TagType.CrowdControl),
    ("Healing", TagType.Healing),
    ("DPS", TagType.DPS),
    ("Nuker", TagType.Nuker),
    ("SeniorOperator", TagType.SeniorOperator),
    ("Senior-Operator", TagType.SeniorOperator),
    ("Senior Operator", TagType.SeniorOperator),
    ("Specialist", TagType.Specialist),
    ("Robot", TagType.Robot),
    ("Top-Operator", TagType.TopOperator),
    ("TopOperator", TagType.TopOperator),
    ("Top Operator", TagType.TopOperator) ]

/-- The strings accepted by `Tag::new`'s match: the keys of the table. -/
def acceptedTagStrings : List String := tagTable.map Prod.fst

/-- The string match of `Tag::new` as a partial map: `some` on the arms
listed in the table, `none` on the wildcard arm. -/
def tagTypeOfString (s : String) : Option TagType := tagTable.lookup s

/-- `Tag::new`, src/types/tag.rs lines 259-301: resolve the string through
the match, propagate `InvalidTagString` on the wildcard arm, otherwise
build the record. -/
def Tag.new (tag_string : String) (selected : Bool) (bounding_box : Rect) :
    Except TagError Tag :=
  match tagTypeOfString tag_string with
  | some t =>
      Except.ok { tag_type := t, selected := selected,
                  bounding_box := bounding_box }
  | none => Except.error TagError.InvalidTagString

/-- Outcome of `load_operator_data`, src/types/operator.rs lines 80-86.
`err` is the `Err(io::Error)` propagated by the `?` on `File::open`;
`panic` is the process abort caused by `.unwrap()` on the
`serde_json::from_reader` result. -/
inductive LoadResult where
  | ok (pool : List Operator)
  | err
  | panic
  deriving DecidableEq, Repr

/-- `load_operator_data`, src/types/operator.rs lines 80-86, with the
filesystem outcome made explicit: `fileOpens` tells whether
`File::open("data/pool.json")` succeeds (false = missing/unreadable file),
and `parsed` is the `serde_json::from_reader` outcome (`none` = malformed
JSON).  A missing file is returned as `Err` through `?`; a parse failure
is hit by `.unwrap()` and panics. -/
def load_operator_data (fileOpens : Bool) (parsed : Option (List Operator)) :
    LoadResult :=
  if !fileOpens then
    LoadResult.err
  else
    match parsed with
    | some ops => LoadResult.ok ops
    | none => LoadResult.panic

/-- `Calculator::new`, src/core/calculator.rs lines 30-38:
`load_operator_data().unwrap_or(vec![])` keeps an `Ok` pool, replaces an
`Err` by the empty pool, and cannot intercept a panic (`none`). -/
def Calculator.new (fileOpens : Bool) (parsed : Option (List Operator)) :
    Option Calculator :=
  match load_operator_data fileOpens parsed with
  | LoadResult.ok pool =>
      some { pool := pool, ignore_tier_1 := false, ignore_tier_2 := false,
             ignore_tier_3 := false, sort_order := Order.Default }
  | LoadResult.err =>
      some { pool := [], ignore_tier_1 := false, ignore_tier_2 := false,
             ignore_tier_3 := false, sort_order := Order.Default }
  | LoadResult.panic => none

/-- `Calculator::evaluate`, src/core/calculator.rs lines 56-90.  The
`Arc<Mutex<Vec<UiTag>>>` argument is modelled by the tag list it guards;
the lock/snapshot mechanics carry no logical content.  For each variation
the match list is built and the variation is dropped (`filter_map` ->
`None`) when it is empty. -/
def Calculator.evaluate (c : Calculator) (tags : List UiTag) :
    List CalcResult :=
  let tagTypes : List TagType := tags.map (fun f => f.tag_type)
  (Calculator.variations tagTypes).filterMap (fun variation =>
    let matched_ops : List Operator := c.matchedOps variation
    if matched_ops.length = 0 then
      none
    else
      some { tag_variation := variation, obtainable_operators := matched_ops })

/-- `MIN_TAG_BOX_SIZE`, src/types/tag.rs line 21: the f64 literal `0.005`;
real-valued arithmetic of the source is modelled exactly over `ℚ`. -/
def MIN_TAG_BOX_SIZE : ℚ := 5 / 1000

/-- `MAX_TAG_BOX_SIZE`, src/types/tag.rs line 22: the f64 literal `0.250`. -/
def MAX_TAG_BOX_SIZE : ℚ := 250 / 1000

/-- OpenCV `bounding_rect`: the minimal up-right rectangle containing the
points, with inclusive extents (`width = max x - min x + 1`). -/
def boundingRect (poly : List Point) : Rect :=
  match poly with
  | [] => { x := 0, y := 0, width := 0, height := 0 }
  | p :: ps =>
      let minX : Int := ps.foldl (fun a q => min a q.x) p.x
      let minY : Int := ps.foldl (fun a q => min a q.y) p.y
      let maxX : Int := ps.foldl (fun a q => max a q.x) p.x
      let maxY : Int := ps.foldl (fun a q => max a q.y) p.y
      { x := minX, y := minY, width := maxX - minX + 1, height := maxY - minY + 1 }

/-- `detect_tag_boxes`, src/types/tag.rs lines 552-592.  The OpenCV
capabilities are explicit arguments: `contours` is the output of
`find_contours` on the thresholded image, and `approxPolyDp` stands for
`arc_length` followed by `approx_poly_dp` with tolerance 9% of the
perimeter (an external image primitive, per the spec an excluded
collaborator).  The function's own logic — keep a contour only if its
approximated polygon has exactly 4 vertices and its bounding rectangle's
area lies in `[MIN_TAG_BOX_SIZE, MAX_TAG_BOX_SIZE)` of the image area —
is embedded verbatim. -/
def detect_tag_boxes (imgSize : Size) (approxPolyDp : List Point → List Point)
    (contours : List (List Point)) : List Rect :=
  contours.filterMap (fun v =>
    let poly : List Point := approxPolyDp v
    if poly.length = 4 then
      let bounding : Rect := boundingRect poly
      if MAX_TAG_BOX_SIZE * (imgSize.area : ℚ) > (bounding.area : ℚ)
          ∧ (bounding.area : ℚ) ≥ MIN_TAG_BOX_SIZE * (imgSize.area : ℚ) then
        some bounding
      else
        none
    else
      none)

/-- `tag_button_to_string`, src/types/tag.rs lines 665-707, its external
collaborators made explicit.  The crop / inset / threshold / TIFF-encode /
Tesseract steps reduce to the raw OCR text `tag_string` they produce, and
difflib's `get_close_matches` is an abstract fuzzy-match capability taking
(query, vocabulary, result limit, similarity cutoff).  The function's own
logic: reject text shorter than 3 characters, otherwise call the matcher
with the fixed vocabulary, limit 1 and cutoff 0.5, and return its first
result if any. -/
def tag_button_to_string
    (get_close_matches : String → List String → Nat → ℚ → List String)
    (tag_string : String) : Option String :=
  if tag_string.length < 3 then
    none
  else
    let a : List String := get_close_matches tag_string TAGS_STRINGS 1 (1 / 2)
    match a.head? with
    | none => none
    | some v => some v

/-! ### Helper lemmas -/

/-- Propositional reading of `Operator::matches_tags`. -/
theorem matches_tags_eq_true_iff (op : Operator) (tags : List TagType) :
    op.matches_tags tags = true ↔
      ((op.rarity ≠ Rarity.Tier6 ∨ TagType.TopOperator ∈ tags)
        ∧ ∀ t ∈ tags, t ∈ op.tag_list) := by
  unfold Operator.matches_tags
  by_cases h6 : op.rarity = Rarity.Tier6
  · by_cases h0 : TagType.TopOperator ∈ tags
    · simp [h6, h0, List.all_eq_true, List.elem_iff]
    · simp [h6, h0]
  · simp [h6, List.all_eq_true, List.elem_iff]

/-- Prepending the empty subset to `Calculator::variations` gives a
permutation of `sublists'`: the loop over lengths `1..=n` is the full
sublist enumeration minus the length-0 entry. -/
theorem variations_cons_nil_perm (tags : List TagType) :
    ([] :: Calculator.variations tags).Perm tags.sublists' := by
  have h := List.range_bind_sublistsLen_perm tags
  rw [List.range_succ_eq_map, List.flatMap_cons, List.sublistsLen_zero,
    List.flatMap_map] at h
  simpa [Calculator.variations, Function.comp, Nat.succ_eq_add_one] using h

theorem length_variations (tags : List TagType) :
    (Calculator.variations tags).length = 2 ^ tags.length - 1 := by
  have h := (variations_cons_nil_perm tags).length_eq
  rw [List.length_cons, List.length_sublists'] at h
  omega

theorem mem_variations (tags : List TagType) (l : List TagType) :
    l ∈ Calculator.variations tags ↔ l.Sublist tags ∧ l ≠ [] := by
  constructor
  · intro hl
    have hmem : l ∈ tags.sublists' :=
      (variations_cons_nil_perm tags).mem_iff.mp (List.mem_cons_of_mem _ hl)
    refine ⟨List.mem_sublists'.mp hmem, ?_⟩
    intro hnil
    subst hnil
    simp only [Calculator.variations, List.mem_flatMap, List.mem_range] at hl
    obtain ⟨i, _, hi⟩ := hl
    have := List.length_of_sublistsLen hi
    simp at this
  · rintro ⟨hsub, hne⟩
    have hmem : l ∈ tags.sublists' := List.mem_sublists'.mpr hsub
    have := (variations_cons_nil_perm tags).mem_iff.mpr hmem
    rcases List.mem_cons.mp this with h | h
    · exact absurd h hne
    · exact h

theorem nodup_variations (tags : List TagType) (h : tags.Nodup) :
    (Calculator.variations tags).Nodup := by
  have hs : tags.sublists'.Nodup := List.nodup_sublists'.mpr h
  have h2 : ([] :: Calculator.variations tags).Nodup :=
    (variations_cons_nil_perm tags).nodup_iff.mpr hs
  exact (List.nodup_cons.mp h2).2

/-- The tier-skip condition can never hold: a rarity value cannot equal
two distinct tiers at once. -/
theorem tierSkip_eq_false (c : Calculator) (op : Operator) :
    c.tierSkip op = false := by
  cases hr : op.rarity <;> simp [Calculator.tierSkip, hr]

theorem mem_matchedOps (c : Calculator) (v : List TagType) (op : Operator) :
    op ∈ c.matchedOps v ↔ op ∈ c.pool ∧ op.matches_tags v = true := by
  simp [Calculator.matchedOps, List.mem_filter, tierSkip_eq_false]

/-- The tier filter being vacuous, the match list is a plain filter of the
pool by `matches_tags`. -/
theorem matchedOps_eq (c : Calculator) (v : List TagType) :
    c.matchedOps v = c.pool.filter (fun op => op.matches_tags v) := by
  unfold Calculator.matchedOps
  apply List.filter_congr
  intro op _
  simp [tierSkip_eq_false]

/-- `evaluate` written without the vacuous tier filter: it only depends on
the pool. -/
theorem evaluate_eq (c : Calculator) (tags : List UiTag) :
    c.evaluate tags
      = (Calculator.variations (tags.map (fun f => f.tag_type))).filterMap
          (fun v =>
            if (c.pool.filter (fun op => op.matches_tags v)).length = 0 then
              none
            else
              some { tag_variation := v,
                     obtainable_operators :=
                       c.pool.filter (fun op => op.matches_tags v) }) := by
  unfold Calculator.evaluate
  simp only [matchedOps_eq]

theorem mem_evaluate (c : Calculator) (tags : List UiTag) (r : CalcResult) :
    r ∈ c.evaluate tags ↔
      ∃ v ∈ Calculator.variations (tags.map (fun f => f.tag_type)),
        c.matchedOps v ≠ []
          ∧ r = { tag_variation := v, obtainable_operators := c.matchedOps v } := by
  simp only [Calculator.evaluate, List.mem_filterMap]
  constructor
  · rintro ⟨v, hv, hsome⟩
    split at hsome
    · exact absurd hsome (by simp)
    · rename_i hlen
      refine ⟨v, hv, fun hnil => hlen (by simp [hnil]), ?_⟩
      exact (Option.some.inj hsome).symm
  · rintro ⟨v, hv, hne, rfl⟩
    refine ⟨v, hv, ?_⟩
    rw [if_neg]
    simpa using hne

/-! ### Shared concrete sample data (used by the witnesses) -/

def sampleRect : Rect := { x := 0, y := 0, width := 10, height := 10 }

def opRanged : Operator :=
  { id := "a", name := "A", rarity := Rarity.Tier3,
    tag_list := [TagType.Ranged, TagType.Survival],
    position := Position.Ranged }

def sampleCalc : Calculator :=
  { pool := [opRanged], ignore_tier_1 := false, ignore_tier_2 := false,
    ignore_tier_3 := false, sort_order := Order.Default }

def sampleUiTags : List UiTag :=
  [{ tag_type := TagType.Ranged, offset_x := 0, offset_y := 0,
     selected := false, bounding_box := sampleRect }]

/-! ### Claims -/

/-- C1: for every operator and every tag subset, `Operator::matches_tags`
returns true if and only if (the operator's rarity is not Tier6, or the
subset contains the TopOperator kind) and every kind in the subset is
present in the operator's tag list. -/
theorem c1_matches_tags_spec (op : Operator) (tags : List TagType) :
    op.matches_tags tags = true ↔
      ((op.rarity ≠ Rarity.Tier6 ∨ TagType.TopOperator ∈ tags)
        ∧ ∀ t ∈ tags, t ∈ op.tag_list) :=
  matches_tags_eq_true_iff op tags

/-- Witness for C1 at a concrete operator and subset. -/
theorem c1_matches_tags_spec_witness :
    (({ id := "a", name := "A", rarity := Rarity.Tier3,
        tag_list := [TagType.Ranged, TagType.Survival],
        position := Position.Ranged } : Operator).rarity ≠ Rarity.Tier6
      ∨ TagType.TopOperator ∈ [TagType.Ranged])
    ∧ ∀ t ∈ [TagType.Ranged],
        t ∈ ({ id := "a", name := "A", rarity := Rarity.Tier3,
               tag_list := [TagType.Ranged, TagType.Survival],
               position := Position.Ranged } : Operator).tag_list :=
  (c1_matches_tags_spec
    { id := "a", name := "A", rarity := Rarity.Tier3,
      tag_list := [TagType.Ranged, TagType.Survival],
      position := Position.Ranged }
    [TagType.Ranged]).mp (by decide)

/-- C2: for every input list of n distinct tag kinds,
`Calculator::variations` returns exactly 2^n - 1 subsets, with no
duplicate subset and no empty subset, covering every non-empty subset of
the input (and containing nothing but such subsets). -/
theorem c2_variations_spec (tags : List TagType) (h : tags.Nodup) :
    (Calculator.variations tags).length = 2 ^ tags.length - 1
    ∧ (Calculator.variations tags).Nodup
    ∧ [] ∉ Calculator.variations tags
    ∧ (∀ l : List TagType, l.Sublist tags → l ≠ [] →
        l ∈ Calculator.variations tags)
    ∧ (∀ l ∈ Calculator.variations tags, l.Sublist tags ∧ l ≠ []) := by
  refine ⟨length_variations tags, nodup_variations tags h, ?_, ?_, ?_⟩
  · intro hmem
    exact ((mem_variations tags []).mp hmem).2 rfl
  · intro l hsub hne
    exact (mem_variations tags l).mpr ⟨hsub, hne⟩
  · intro l hmem
    exact (mem_variations tags l).mp hmem

/-- Witness for C2 on the two-kind input of the spec's Scenario A. -/
theorem c2_variations_spec_witness :
    ([TagType.Ranged, TagType.Survival] : List TagType).Nodup
    ∧ ((Calculator.variations [TagType.Ranged, TagType.Survival]).length
          = 2 ^ ([TagType.Ranged, TagType.Survival] : List TagType).length - 1
        ∧ (Calculator.variations [TagType.Ranged, TagType.Survival]).Nodup
        ∧ [] ∉ Calculator.variations [TagType.Ranged, TagType.Survival]
        ∧ (∀ l : List TagType,
            l.Sublist [TagType.Ranged, TagType.Survival] → l ≠ [] →
              l ∈ Calculator.variations [TagType.Ranged, TagType.Survival])
        ∧ (∀ l ∈ Calculator.variations [TagType.Ranged, TagType.Survival],
            l.Sublist [TagType.Ranged, TagType.Survival] ∧ l ≠ [])) :=
  ⟨by decide, c2_variations_spec [TagType.Ranged, TagType.Survival] (by decide)⟩

/-- C3: for every `CalcResult` produced by `Calculator::evaluate`, if its
tag variation does not contain the TopOperator kind, then no operator in
its obtainable-operators list has Tier6 rarity. -/
theorem c3_no_tier6_without_top (c : Calculator) (tags : List UiTag)
    (r : CalcResult) (hr : r ∈ c.evaluate tags)
    (htop : TagType.TopOperator ∉ r.tag_variation) :
    ∀ op ∈ r.obtainable_operators, op.rarity ≠ Rarity.Tier6 := by
  obtain ⟨v, _, _, rfl⟩ := (mem_evaluate c tags r).mp hr
  intro op hop h6
  have hm := ((mem_matchedOps c v op).mp hop).2
  rcases ((matches_tags_eq_true_iff op v).mp hm).1 with h | h
  · exact h h6
  · exact htop h

/-- Witness for C3 at a concrete evaluation. -/
theorem c3_no_tier6_without_top_witness :
    ({ tag_variation := [TagType.Ranged], obtainable_operators := [opRanged] }
        : CalcResult) ∈ sampleCalc.evaluate sampleUiTags
    ∧ TagType.TopOperator
        ∉ ({ tag_variation := [TagType.Ranged],
             obtainable_operators := [opRanged] } : CalcResult).tag_variation
    ∧ ∀ op ∈ ({ tag_variation := [TagType.Ranged],
                obtainable_operators := [opRanged] }
          : CalcResult).obtainable_operators,
        op.rarity ≠ Rarity.Tier6 :=
  ⟨by decide, by decide,
    c3_no_tier6_without_top sampleCalc sampleUiTags
      { tag_variation := [TagType.Ranged], obtainable_operators := [opRanged] }
      (by decide) (by decide)⟩

/-- C4: in `Calculator::evaluate`, an operator is skipped by the tier
filter only when all three ignore flags are set and its rarity equals
Tier1, Tier2 and Tier3 at once — the skip condition is the literal
conjunction of the three flag-and-comparison pairs. -/
theorem c4_tier_filter_literal_conjunction (c : Calculator) (op : Operator) :
    c.tierSkip op = true ↔
      ((c.ignore_tier_1 = true ∧ c.ignore_tier_2 = true
          ∧ c.ignore_tier_3 = true)
        ∧ (op.rarity = Rarity.Tier1 ∧ op.rarity = Rarity.Tier2
            ∧ op.rarity = Rarity.Tier3)) := by
  simp only [Calculator.tierSkip, Bool.and_eq_true, beq_iff_eq]
  tauto

/-- Witness for C4: the skip condition refuted at a concrete operator via
the characterization. -/
theorem c4_tier_filter_literal_conjunction_witness :
    ¬ sampleCalc.tierSkip opRanged = true :=
  fun h =>
    absurd ((c4_tier_filter_literal_conjunction sampleCalc opRanged).mp h)
      (by decide)

/-- C5: the tier-filter condition is unsatisfiable, so `evaluate` does not
depend on the three tier-ignore flags and no operator is ever excluded by
tier. -/
theorem c5_evaluate_flag_independent (pool : List Operator) (so : Order)
    (b1 b2 b3 b1' b2' b3' : Bool) (tags : List UiTag) (op : Operator) :
    Calculator.tierSkip
        { pool := pool, ignore_tier_1 := b1, ignore_tier_2 := b2,
          ignore_tier_3 := b3, sort_order := so } op = false
    ∧ Calculator.evaluate
        { pool := pool, ignore_tier_1 := b1, ignore_tier_2 := b2,
          ignore_tier_3 := b3, sort_order := so } tags
      = Calculator.evaluate
          { pool := pool, ignore_tier_1 := b1', ignore_tier_2 := b2',
            ignore_tier_3 := b3', sort_order := so } tags := by
  refine ⟨tierSkip_eq_false _ _, ?_⟩
  rw [evaluate_eq, evaluate_eq]

/-- Witness for C5 at concrete flag settings. -/
theorem c5_evaluate_flag_independent_witness :
    Calculator.tierSkip
        { pool := [opRanged], ignore_tier_1 := true, ignore_tier_2 := true,
          ignore_tier_3 := true, sort_order := Order.Default } opRanged = false
    ∧ Calculator.evaluate
        { pool := [opRanged], ignore_tier_1 := true, ignore_tier_2 := true,
          ignore_tier_3 := true, sort_order := Order.Default } sampleUiTags
      = Calculator.evaluate
          { pool := [opRanged], ignore_tier_1 := false,
            ignore_tier_2 := false, ignore_tier_3 := false,
            sort_order := Order.Default } sampleUiTags :=
  c5_evaluate_flag_independent [opRanged] Order.Default
    true true true false false false sampleUiTags opRanged

/-- C7: `Calculator::evaluate` emits a result for a subset if and only if
at least one operator matches it; emitted results never carry an empty
operator list. -/
theorem c7_emit_iff_nonempty_match (c : Calculator) (tags : List UiTag)
    (v : List TagType) :
    ((∃ r ∈ c.evaluate tags, r.tag_variation = v) ↔
      (v ∈ Calculator.variations (tags.map (fun f => f.tag_type))
        ∧ ∃ op ∈ c.pool, op.matches_tags v = true))
    ∧ ∀ r ∈ c.evaluate tags, r.obtainable_operators ≠ [] := by
  constructor
  · constructor
    · rintro ⟨r, hr, hv⟩
      obtain ⟨v', hv', hne, rfl⟩ := (mem_evaluate c tags r).mp hr
      simp only at hv
      subst hv
      obtain ⟨op, hop⟩ := List.exists_mem_of_ne_nil _ hne
      exact ⟨hv', op, (mem_matchedOps c _ op).mp hop⟩
    · rintro ⟨hv, op, hop, hmatch⟩
      have hmem : op ∈ c.matchedOps v :=
        (mem_matchedOps c v op).mpr ⟨hop, hmatch⟩
      refine ⟨{ tag_variation := v, obtainable_operators := c.matchedOps v },
        ?_, rfl⟩
      exact (mem_evaluate c tags _).mpr
        ⟨v, hv, List.ne_nil_of_mem hmem, rfl⟩
  · intro r hr
    obtain ⟨v, _, hne, rfl⟩ := (mem_evaluate c tags r).mp hr
    exact hne

/-- Witness for C7: a subset with a matching operator is emitted. -/
theorem c7_emit_iff_nonempty_match_witness :
    ∃ r ∈ sampleCalc.evaluate sampleUiTags,
      r.tag_variation = [TagType.Ranged] :=
  (c7_emit_iff_nonempty_match sampleCalc sampleUiTags [TagType.Ranged]).1.mpr
    (by decide)

/-- With an empty operator pool every variation's match list is empty, so
`evaluate` drops every variation. -/
theorem evaluate_empty_pool (b1 b2 b3 : Bool) (so : Order)
    (tags : List UiTag) :
    Calculator.evaluate
      { pool := [], ignore_tier_1 := b1, ignore_tier_2 := b2,
        ignore_tier_3 := b3, sort_order := so } tags = [] := by
  rw [evaluate_eq]
  simp

/-- C6: claim — a catalog load failure (missing or malformed file) falls
back to an empty operator pool, after which every `evaluate` call returns
an empty result list rather than an error or crash.  The code honours this
for a missing file (`File::open` error propagated by `?`, absorbed by
`unwrap_or(vec![])`), but a malformed file hits the `.unwrap()` on the
`serde_json::from_reader` result in `load_operator_data` and panics, even
though the `map_err` into `io::Error` right before it shows the error was
meant to be propagated.  This theorem records both halves. -/
theorem c6_catalog_load_failure :
    load_operator_data false none = LoadResult.err
    ∧ Calculator.new false none
        = some { pool := [], ignore_tier_1 := false, ignore_tier_2 := false,
                 ignore_tier_3 := false, sort_order := Order.Default }
    ∧ (∀ tags : List UiTag,
        Calculator.evaluate
          { pool := [], ignore_tier_1 := false, ignore_tier_2 := false,
            ignore_tier_3 := false, sort_order := Order.Default } tags = [])
    ∧ load_operator_data true none = LoadResult.panic
    ∧ Calculator.new true none = none :=
  ⟨rfl, rfl, fun tags => evaluate_empty_pool false false false Order.Default tags,
    rfl, rfl⟩

/-- C8: every rectangle returned by `detect_tag_boxes` has area `a` with
`0.005 * imageArea ≤ a < 0.25 * imageArea` and is the bounding rectangle
of an approximated polygon with exactly 4 vertices. -/
theorem c8_detect_tag_boxes_spec (imgSize : Size)
    (approxPolyDp : List Point → List Point) (contours : List (List Point))
    (r : Rect) (hr : r ∈ detect_tag_boxes imgSize approxPolyDp contours) :
    (MIN_TAG_BOX_SIZE * (imgSize.area : ℚ) ≤ (r.area : ℚ)
      ∧ (r.area : ℚ) < MAX_TAG_BOX_SIZE * (imgSize.area : ℚ))
    ∧ ∃ v ∈ contours,
        (approxPolyDp v).length = 4 ∧ r = boundingRect (approxPolyDp v) := by
  simp only [detect_tag_boxes, List.mem_filterMap] at hr
  obtain ⟨v, hv, hsome⟩ := hr
  split at hsome
  · rename_i h4
    split at hsome
    · rename_i harea
      cases Option.some.inj hsome
      exact ⟨⟨harea.2, harea.1⟩, v, hv, h4, rfl⟩
    · exact absurd hsome (by simp)
  · exact absurd hsome (by simp)

/-- Witness for C8 on a concrete 100x100 image with one quadrilateral
contour. -/
theorem c8_detect_tag_boxes_spec_witness :
    (MIN_TAG_BOX_SIZE * (({ width := 100, height := 100 } : Size).area : ℚ)
        ≤ (({ x := 0, y := 0, width := 10, height := 10 } : Rect).area : ℚ)
      ∧ (({ x := 0, y := 0, width := 10, height := 10 } : Rect).area : ℚ)
        < MAX_TAG_BOX_SIZE
            * (({ width := 100, height := 100 } : Size).area : ℚ))
    ∧ ∃ v ∈ [[({ x := 0, y := 0 } : Point), { x := 0, y := 9 },
              { x := 9, y := 0 }, { x := 9, y := 9 }]],
        ((fun w : List Point => w) v).length = 4
          ∧ ({ x := 0, y := 0, width := 10, height := 10 } : Rect)
              = boundingRect ((fun w : List Point => w) v) :=
  c8_detect_tag_boxes_spec { width := 100, height := 100 }
    (fun w : List Point => w)
    [[{ x := 0, y := 0 }, { x := 0, y := 9 },
      { x := 9, y := 0 }, { x := 9, y := 9 }]]
    { x := 0, y := 0, width := 10, height := 10 }
    (by norm_num [detect_tag_boxes, boundingRect, MIN_TAG_BOX_SIZE,
      MAX_TAG_BOX_SIZE, Rect.area, Size.area, List.filterMap])

/-- C9: `tag_button_to_string` returns `none` whenever the raw OCR text is
shorter than 3 characters; otherwise it hands the raw text to the fuzzy
matcher with the fixed tag vocabulary, result limit 1 and similarity
cutoff 0.5, and returns the single best match, or `none` when the matcher
returns no candidate. -/
theorem c9_tag_button_to_string_spec
    (gcm : String → List String → Nat → ℚ → List String)
    (tag_string : String) :
    (tag_string.length < 3 → tag_button_to_string gcm tag_string = none)
    ∧ (3 ≤ tag_string.length →
        tag_button_to_string gcm tag_string
          = (gcm tag_string TAGS_STRINGS 1 (1 / 2)).head?) := by
  constructor
  · intro h
    simp [tag_button_to_string, h]
  · intro h
    have h' : ¬ tag_string.length < 3 := by omega
    simp only [tag_button_to_string, if_neg h']
    cases (gcm tag_string TAGS_STRINGS 1 (1 / 2)).head? <;> rfl

/-- Witness for C9: both branches at concrete OCR outputs, with a matcher
that returns no candidate. -/
theorem c9_tag_button_to_string_spec_witness :
    tag_button_to_string (fun _ _ _ _ => []) "ab" = none
    ∧ tag_button_to_string (fun _ _ _ _ => []) "abc"
        = ((fun _ _ _ _ => ([] : List String)) "abc" TAGS_STRINGS
            1 (1 / 2)).head? :=
  ⟨(c9_tag_button_to_string_spec (fun _ _ _ _ => []) "ab").1 (by decide),
    (c9_tag_button_to_string_spec (fun _ _ _ _ => []) "abc").2 (by decide)⟩

/-- A key absent from an association list looks up to `none`. -/
theorem lookup_eq_none_of_not_mem_keys (l : List (String × TagType))
    (s : String) (h : s ∉ l.map Prod.fst) : l.lookup s = none := by
  induction l with
  | nil => rfl
  | cons p t ih =>
      simp only [List.map_cons, List.mem_cons, not_or] at h
      cases p with
      | mk k v =>
          have hk : (s == k) = false := by
            simp only [beq_eq_false_iff_ne, ne_eq]
            exact h.1
          simp only [List.lookup_cons, hk]
          exact ih h.2

/-- C10: `Tag::new` maps every accepted spelling in its lookup table to
that spelling's single canonical `TagType` (so all spelling variants of a
kind, hyphenated, concatenated or spaced, land on the same kind), and
returns the `InvalidTagString` error for every string outside the
table. -/
theorem c10_tag_new_spec (sel : Bool) (bb : Rect) :
    (∀ p ∈ tagTable,
        Tag.new p.1 sel bb
          = Except.ok { tag_type := p.2, selected := sel,
                        bounding_box := bb })
    ∧ ∀ s : String, s ∉ acceptedTagStrings →
        Tag.new s sel bb = Except.error TagError.InvalidTagString := by
  constructor
  · intro p hp
    fin_cases hp <;> rfl
  · intro s hs
    unfold Tag.new tagTypeOfString
    rw [lookup_eq_none_of_not_mem_keys tagTable s hs]

/-- Witness for C10: a string outside the table is rejected, and two
spelling variants of the same kind both map to `CrowdControl`. -/
theorem c10_tag_new_spec_witness :
    Tag.new "Berserker" true sampleRect
        = Except.error TagError.InvalidTagString
    ∧ Tag.new "Crowd Control" true sampleRect
        = Except.ok { tag_type := TagType.CrowdControl, selected := true,
                      bounding_box := sampleRect }
    ∧ Tag.new "Crowd-Control" true sampleRect
        = Except.ok { tag_type := TagType.CrowdControl, selected := true,
                      bounding_box := sampleRect } :=
  ⟨(c10_tag_new_spec true sampleRect).2 "Berserker" (by decide),
    (c10_tag_new_spec true sampleRect).1 ("Crowd Control", TagType.CrowdControl)
      (by decide),
    (c10_tag_new_spec true sampleRect).1 ("Crowd-Control", TagType.CrowdControl)
      (by decide)⟩

end Retag
